import Mathlib

/-!
Shallow embedding of the CCA-FR authentication front-end:
the configuration module `src/config/odoo.js` and the `LoginPage`
component, together with the credential-validation and login behaviour
described by the specification for the parts of the system whose code
is not in this repository snapshot.
-/

namespace CCAFR

/-- The process environment: a partial map from variable names to values,
modelling `process.env`. -/
def Env : Type := String → Option String

/-- JavaScript `x || d` applied to an environment lookup: both an unset
variable (`undefined`) and the empty string are falsy, so both yield the
default `d`. -/
def orDefault (o : Option String) (d : String) : String :=
  match o with
  | none => d
  | some s => if s = "" then d else s

/-- `export const ODOO_URL = process.env.REACT_APP_ODOO_URL || '...'` -/
def ODOO_URL (env : Env) : String :=
  orDefault (env "REACT_APP_ODOO_URL") "https://prezlab.odoo.com/"

/-- `export const ODOO_DB = process.env.REACT_APP_ODOO_DB || '...'` -/
def ODOO_DB (env : Env) : String :=
  orDefault (env "REACT_APP_ODOO_DB") "odoo-ps-psae-prezlab-main-10779811"

/-- `export const DEFAULT_SENDER_EMAIL = process.env.REACT_APP_DEFAULT_SENDER_EMAIL || ''` -/
def DEFAULT_SENDER_EMAIL (env : Env) : String :=
  orDefault (env "REACT_APP_DEFAULT_SENDER_EMAIL") ""

/-- `export const DEFAULT_SENDER_PASSWORD = process.env.REACT_APP_DEFAULT_SENDER_PASSWORD || ''` -/
def DEFAULT_SENDER_PASSWORD (env : Env) : String :=
  orDefault (env "REACT_APP_DEFAULT_SENDER_PASSWORD") ""

/-- `export const DEFAULT_SMTP_SERVER = process.env.REACT_APP_DEFAULT_SMTP_SERVER || 'smtp.gmail.com'` -/
def DEFAULT_SMTP_SERVER (env : Env) : String :=
  orDefault (env "REACT_APP_DEFAULT_SMTP_SERVER") "smtp.gmail.com"

/-- `export const DEFAULT_SMTP_PORT = process.env.REACT_APP_DEFAULT_SMTP_PORT || '587'` -/
def DEFAULT_SMTP_PORT (env : Env) : String :=
  orDefault (env "REACT_APP_DEFAULT_SMTP_PORT") "587"

/-- JavaScript `s.split(',')` on the character list: splits at every comma,
keeping empty pieces, and yields `[""]` on the empty string. -/
def jsSplitCommaAux : List Char → List Char → List (List Char)
  | [], acc => [acc.reverse]
  | c :: rest, acc =>
      if c = ',' then acc.reverse :: jsSplitCommaAux rest []
      else jsSplitCommaAux rest (c :: acc)

/-- JavaScript `s.split(',')`. -/
def jsSplitComma (s : String) : List String :=
  (jsSplitCommaAux s.data []).map String.mk

/-- Drop leading whitespace characters from a character list. -/
def dropLeadingWhitespace : List Char → List Char
  | [] => []
  | c :: rest => if c.isWhitespace then dropLeadingWhitespace rest else c :: rest

/-- JavaScript `s.trim()`: remove leading and trailing whitespace. -/
def jsTrim (s : String) : String :=
  String.mk ((dropLeadingWhitespace (dropLeadingWhitespace s.data).reverse).reverse)

/-- JavaScript `toLowerCase` on one character (ASCII range). -/
def jsLowerChar (c : Char) : Char :=
  if 65 ≤ c.toNat ∧ c.toNat ≤ 90 then Char.ofNat (c.toNat + 32) else c

/-- JavaScript `s.toLowerCase()`. -/
def jsToLower (s : String) : String :=
  String.mk (s.data.map jsLowerChar)

/-- The hard-coded fallback allow-list from `src/config/odoo.js`. -/
def defaultAllowedEmails : List String :=
  ["omar.elhasan@prezlab.com", "sanad.zaqtan@prezlab.com"]

/-- `export const ALLOWED_USER_EMAILS = process.env.REACT_APP_ALLOWED_USER_EMAILS
      ? process.env.REACT_APP_ALLOWED_USER_EMAILS.split(',').map(email => email.trim())
      : [...]`
The ternary condition is JavaScript truthiness, so an unset variable and
the empty string both select the fallback list. -/
def ALLOWED_USER_EMAILS (env : Env) : List String :=
  match env "REACT_APP_ALLOWED_USER_EMAILS" with
  | none => defaultAllowedEmails
  | some s =>
      if s = "" then defaultAllowedEmails
      else (jsSplitComma s).map jsTrim

/-- The email-collaborator values exported by the configuration module. -/
structure EmailConfig where
  senderEmail : String
  senderPassword : String
  smtpServer : String
  smtpPort : String
deriving DecidableEq, Repr

/-- All values exported by `src/config/odoo.js`, computed once from the
environment at module load. -/
structure Config where
  odooUrl : String
  odooDb : String
  senderEmail : String
  senderPassword : String
  smtpServer : String
  smtpPort : String
  allowedUserEmails : List String
deriving DecidableEq, Repr

/-- Loading the configuration module: a pure function of the environment,
since the module consists only of `const` definitions. -/
def loadConfig (env : Env) : Config :=
  { odooUrl := ODOO_URL env
    odooDb := ODOO_DB env
    senderEmail := DEFAULT_SENDER_EMAIL env
    senderPassword := DEFAULT_SENDER_PASSWORD env
    smtpServer := DEFAULT_SMTP_SERVER env
    smtpPort := DEFAULT_SMTP_PORT env
    allowedUserEmails := ALLOWED_USER_EMAILS env }

/-- The email configuration supplied by the core. -/
def emailConfig (env : Env) : EmailConfig :=
  { senderEmail := DEFAULT_SENDER_EMAIL env
    senderPassword := DEFAULT_SENDER_PASSWORD env
    smtpServer := DEFAULT_SMTP_SERVER env
    smtpPort := DEFAULT_SMTP_PORT env }

/-! ## The LoginPage component (`src/pages/LoginPage` in the repository) -/

/-- The `form` state object of `LoginPage`:
`useState({ url: ODOO_URL, database: ODOO_DB, username: '', password: '' })`.
It has exactly these four fields. -/
structure Form where
  url : String
  database : String
  username : String
  password : String
deriving DecidableEq, Repr

/-- `handleChange`: `setForm((prev) => ({ ...prev, [name]: value }))`, the
computed-property update of the field whose key equals the triggering
input element's `name`. -/
def handleChange (f : Form) (n v : String) : Form :=
  { url := if n = "url" then v else f.url
    database := if n = "database" then v else f.database
    username := if n = "username" then v else f.username
    password := if n = "password" then v else f.password }

/-- The input elements rendered by `LoginPage`'s JSX: one named
`username` and one named `password`; the URL and database fields are
intentionally not rendered. -/
inductive RenderedInput
  | username
  | password
deriving DecidableEq, Repr

/-- The `name` attribute of each rendered input element. -/
def RenderedInput.inputName : RenderedInput → String
  | .username => "username"
  | .password => "password"

/-- Component-local state of `LoginPage`: the `form` object and the
`showPassword` flag. -/
structure LoginState where
  form : Form
  showPassword : Bool
deriving DecidableEq, Repr

/-- User-interface events the rendered page can deliver to the component:
a change event from one of the rendered inputs, or a click on the
show-password toggle button. -/
inductive UIEvent
  | change (i : RenderedInput) (v : String)
  | toggleShow
deriving DecidableEq, Repr

/-- The initial state of `LoginPage`: url and database seeded from the
configuration module, username and password empty, password hidden. -/
def initState (env : Env) : LoginState :=
  { form := { url := ODOO_URL env, database := ODOO_DB env, username := "", password := "" }
    showPassword := false }

/-- One step of the component: a change event runs `handleChange` with the
triggering input's `name` attribute; the toggle button flips
`showPassword`. -/
def step (s : LoginState) : UIEvent → LoginState
  | .change i v => { s with form := handleChange s.form i.inputName v }
  | .toggleShow => { s with showPassword := !s.showPassword }

/-- The state reached from the initial state after a sequence of
user-interface events. -/
def applyEvents (env : Env) (evs : List UIEvent) : LoginState :=
  evs.foldl step (initState env)

/-- `handleSubmit`: `await connectToOdoo(form)` — the payload handed to the
authentication entry point is the form object itself. -/
def submittedPayload (s : LoginState) : Form :=
  s.form

/-! ## Whole-program state

The repository snapshot consists of the configuration module and the
`LoginPage` component; the configuration is a set of module-level `const`
bindings, so every program operation leaves it untouched. -/

/-- Process state: the configuration loaded at module load time together
with the component state. -/
structure ProgramState where
  config : Config
  ui : LoginState
deriving DecidableEq, Repr

/-- Process start: the configuration module is evaluated once, then the
component mounts with its initial state. -/
def initProgram (env : Env) : ProgramState :=
  { config := loadConfig env, ui := initState env }

/-- One program operation: a user-interface event updates the component
state; no operation writes to the configuration bindings. -/
def stepProgram (s : ProgramState) (e : UIEvent) : ProgramState :=
  { config := s.config, ui := step s.ui e }

/-- The program state after a sequence of operations from process start. -/
def runProgram (env : Env) (evs : List UIEvent) : ProgramState :=
  evs.foldl stepProgram (initProgram env)

/-! ## Credential validator and login gateway

The validator and gateway code is not part of this repository snapshot
(only its configuration is), so these are modelled from the spec. -/

/-- Modelled from the spec: the Credential Validator
(`validate(username) -> allowed: bool`), whose code is not in the
repository snapshot. "Comparison is case-insensitive against AllowList"
and it "Returns false for empty/malformed input". -/
def validate (allow : List String) (username : String) : Bool :=
  if username = "" then false
  else allow.any (fun e => jsToLower username = jsToLower e)

/-- Error taxonomy of the ERP Session Client, from the spec. -/
inductive AuthError
  | invalidCredentials
  | transportError
  | protocolError
deriving DecidableEq, Repr

/-- A login credential: `{endpoint URL, database name, username, secret}`. -/
structure Credential where
  endpoint : String
  database : String
  username : String
  password : String
deriving DecidableEq, Repr

/-- An ERP session as created on successful remote authentication. -/
structure ErpSession where
  token : String
  endpoint : String
  database : String
  identity : String
deriving DecidableEq, Repr

/-- Outcome of a login attempt at the Auth Gateway. -/
inductive LoginOutcome
  | forbidden
  | success (s : ErpSession)
  | failure (e : AuthError)
deriving DecidableEq, Repr

/-- Modelled from the spec: the Auth Gateway login transition, whose code
is not in the repository snapshot. It "begins only if Credential
Validator passes; otherwise immediately reports Forbidden", and on a
validator pass performs the remote handshake (abstracted as `remote`).
The second component counts remote calls issued to the ERP endpoint. -/
def login (allow : List String) (remote : Credential → Except AuthError String)
    (cred : Credential) : LoginOutcome × Nat :=
  if validate allow cred.username then
    match remote cred with
    | Except.ok tok =>
        (LoginOutcome.success
          { token := tok, endpoint := cred.endpoint, database := cred.database,
            identity := cred.username }, 1)
    | Except.error e => (LoginOutcome.failure e, 1)
  else
    (LoginOutcome.forbidden, 0)

/-! ## Concrete environments used as test fixtures -/

/-- The empty environment: every configuration variable unset. -/
def envNone : Env := fun _ => none

/-- An environment whose allow-list variable ends in a trailing comma, so
the comma-split produces a retained empty entry. -/
def envTrailingComma : Env := fun v =>
  if v = "REACT_APP_ALLOWED_USER_EMAILS" then some "omar.elhasan@prezlab.com," else none

/-- An environment that sets only the SMTP-server variable. -/
def envSmtp : Env := fun v =>
  if v = "REACT_APP_DEFAULT_SMTP_SERVER" then some "smtp.example.com" else none

/-- An environment that sets only a variable the configuration module never
reads. -/
def envUnrelated : Env := fun v =>
  if v = "SOME_UNRELATED_VAR" then some "x" else none

/-! ## Formalised claims that turn out to be false on this code -/

/-- The claim that a client of the login page can get an endpoint URL or a
database name other than the configured defaults into the submitted
payload, through some sequence of user-interface events. -/
def claimArbitraryEndpoint : Prop :=
  ∃ (env : Env) (evs : List UIEvent),
    (submittedPayload (applyEvents env evs)).url ≠ ODOO_URL env ∨
    (submittedPayload (applyEvents env evs)).database ≠ ODOO_DB env

/-- The claim that the configuration read by the module consists of exactly
the options enumerated by the spec (default endpoint, default database,
allow-list, idle timeout, call timeout): since the code reads no timeout
variable at all, this would mean two environments agreeing on the endpoint,
database and allow-list variables always load the same configuration. -/
def claimConfigExactlyEnumerated : Prop :=
  ∀ env env' : Env,
    env "REACT_APP_ODOO_URL" = env' "REACT_APP_ODOO_URL" →
    env "REACT_APP_ODOO_DB" = env' "REACT_APP_ODOO_DB" →
    env "REACT_APP_ALLOWED_USER_EMAILS" = env' "REACT_APP_ALLOWED_USER_EMAILS" →
    loadConfig env = loadConfig env'

/-! ## Helper lemmas -/

/-- A single component step never changes the url or database field of the
form: the only rendered inputs are named `username` and `password`, and
`handleChange` writes only the field matching the triggering name. -/
lemma step_preserves_url_db (s : LoginState) (e : UIEvent) :
    (step s e).form.url = s.form.url ∧ (step s e).form.database = s.form.database := by
  cases e with
  | change i v =>
      cases i <;>
        simp [step, handleChange, RenderedInput.inputName]
  | toggleShow => exact ⟨rfl, rfl⟩

/-- Folding any event list over any start state leaves url and database
unchanged. -/
lemma foldl_preserves_url_db (s : LoginState) (l : List UIEvent) :
    ((l.foldl step s).form.url = s.form.url ∧
     (l.foldl step s).form.database = s.form.database) := by
  induction l generalizing s with
  | nil => exact ⟨rfl, rfl⟩
  | cons e rest ih =>
      have h1 := step_preserves_url_db s e
      have h2 := ih (step s e)
      exact ⟨h2.1.trans h1.1, h2.2.trans h1.2⟩

/-- In every reachable state of the login page, the form's url and database
are the configured defaults. -/
lemma reachable_url_db (env : Env) (evs : List UIEvent) :
    (applyEvents env evs).form.url = ODOO_URL env ∧
    (applyEvents env evs).form.database = ODOO_DB env :=
  foldl_preserves_url_db (initState env) evs

/-- Folding any event list over any program state leaves the configuration
component untouched. -/
lemma foldl_preserves_config (s : ProgramState) (l : List UIEvent) :
    (l.foldl stepProgram s).config = s.config := by
  induction l generalizing s with
  | nil => rfl
  | cons e rest ih => exact ih (stepProgram s e)

/-- The validator rejects any username with no case-insensitive match in the
allow-list. -/
lemma validate_eq_false_of_no_match (allow : List String) (u : String)
    (h : ∀ e ∈ allow, jsToLower u ≠ jsToLower e) :
    validate allow u = false := by
  unfold validate
  by_cases hu : u = ""
  · simp [hu]
  · simp only [hu, if_false, List.any_eq_false]
    intro e he
    simpa using h e he

/-! ## Claim theorems -/

/-- C1: for every username with no (case-insensitive) match in the
allow-list, `login` returns `Forbidden`, issues zero remote calls to the
ERP endpoint, and creates no `ErpSession`. -/
theorem login_not_allowed_forbidden (allow : List String)
    (remote : Credential → Except AuthError String) (cred : Credential)
    (h : ∀ e ∈ allow, jsToLower cred.username ≠ jsToLower e) :
    (login allow remote cred).1 = LoginOutcome.forbidden ∧
    (login allow remote cred).2 = 0 ∧
    ∀ s : ErpSession, (login allow remote cred).1 ≠ LoginOutcome.success s := by
  have hv := validate_eq_false_of_no_match allow cred.username h
  refine ⟨?_, ?_, ?_⟩ <;> simp [login, hv]

/-- Witness for C1: `mallory@example.com` is not on the default allow-list,
and logging in with it is forbidden without any remote call. -/
theorem login_not_allowed_forbidden_witness :
    (∀ e ∈ ALLOWED_USER_EMAILS envNone, jsToLower "mallory@example.com" ≠ jsToLower e) ∧
    (login (ALLOWED_USER_EMAILS envNone) (fun _ => Except.ok "tok")
        { endpoint := "https://example.odoo.com/", database := "demo",
          username := "mallory@example.com", password := "pw" }).1 = LoginOutcome.forbidden ∧
    (login (ALLOWED_USER_EMAILS envNone) (fun _ => Except.ok "tok")
        { endpoint := "https://example.odoo.com/", database := "demo",
          username := "mallory@example.com", password := "pw" }).2 = 0 := by
  have h := login_not_allowed_forbidden (ALLOWED_USER_EMAILS envNone)
    (fun _ => Except.ok "tok")
    { endpoint := "https://example.odoo.com/", database := "demo",
      username := "mallory@example.com", password := "pw" } (by decide)
  exact ⟨by decide, h.1, h.2.1⟩

/-- C2 counterexample: no sequence of user-interface events can make the
submitted payload carry an endpoint URL or database other than the
configured defaults — the claim that the client may submit arbitrary
values is false. -/
theorem claimArbitraryEndpoint_false : ¬ claimArbitraryEndpoint := by
  rintro ⟨env, evs, h⟩
  have h2 := reachable_url_db env evs
  simp only [submittedPayload] at h
  rcases h with h | h
  · exact h h2.1
  · exact h h2.2

/-- C2 amended: every login submission does carry endpoint and database
fields in its payload, but their values are always the configured defaults
`ODOO_URL` and `ODOO_DB`; no user-interface event can change them. -/
theorem submitted_endpoint_database_are_defaults (env : Env) (evs : List UIEvent) :
    (submittedPayload (applyEvents env evs)).url = ODOO_URL env ∧
    (submittedPayload (applyEvents env evs)).database = ODOO_DB env :=
  reachable_url_db env evs

/-- C3: the allow-list is computed from the environment once at process
start and no program operation changes it: after any sequence of
operations the configuration still equals the load-time value, and each
single operation preserves the allow-list field. -/
theorem allow_list_loaded_once_immutable (env : Env) (evs : List UIEvent) :
    (runProgram env evs).config.allowedUserEmails = ALLOWED_USER_EMAILS env ∧
    (runProgram env evs).config = loadConfig env ∧
    ∀ (s : ProgramState) (e : UIEvent),
      (stepProgram s e).config.allowedUserEmails = s.config.allowedUserEmails := by
  have h := foldl_preserves_config (initProgram env) evs
  exact ⟨by rw [runProgram, h]; rfl, by rw [runProgram, h]; rfl, fun s e => rfl⟩

/-- C4 counterexample: with the allow-list configured as
`"omar.elhasan@prezlab.com,"` the comma-split retains an empty entry, and
for the empty candidate username the claimed equivalence fails: the
validator returns false although an allow-list entry matches the empty
string case-insensitively. -/
theorem validate_iff_counterexample :
    ¬ (validate (ALLOWED_USER_EMAILS envTrailingComma) "" = true ↔
       ∃ e ∈ ALLOWED_USER_EMAILS envTrailingComma, jsToLower "" = jsToLower e) := by
  decide

/-- C4 amended: for every nonempty candidate username `u`, the validator
accepts `u` iff some allow-list entry matches it case-insensitively; in
particular a username differing only in letter case from an allowed entry
is accepted. -/
theorem validate_case_insensitive (allow : List String) (u : String) (h : u ≠ "") :
    validate allow u = true ↔ ∃ e ∈ allow, jsToLower u = jsToLower e := by
  simp [validate, h, List.any_eq_true]

/-- Witness for C4's amended theorem: the upper-cased form of an allowed
address is accepted against the default allow-list. -/
theorem validate_case_insensitive_witness :
    validate defaultAllowedEmails "OMAR.ELHASAN@PREZLAB.COM" = true :=
  (validate_case_insensitive defaultAllowedEmails "OMAR.ELHASAN@PREZLAB.COM"
    (by decide)).mpr (by decide)

/-- C5: the validator rejects the empty username under every configuration
of the allow-list, including environment values whose comma-split retains
empty entries. -/
theorem validate_empty_false (env : Env) :
    validate (ALLOWED_USER_EMAILS env) "" = false :=
  rfl

/-- C6 counterexample: the configuration module also reads the SMTP-server
variable, so two environments agreeing on the endpoint, database and
allow-list variables can still load different configurations — the claimed
enumeration of configuration options is not exact. -/
theorem claimConfigExactlyEnumerated_false : ¬ claimConfigExactlyEnumerated := by
  intro h
  have he := h envNone envSmtp rfl rfl rfl
  have hs : (loadConfig envNone).smtpServer = (loadConfig envSmtp).smtpServer := by
    rw [he]
  simp [loadConfig, DEFAULT_SMTP_SERVER, orDefault, envNone, envSmtp] at hs

/-- C6 amended: the configuration read at module load consists of exactly
the seven options {default endpoint URL, default database name, sender
email, sender password, SMTP server, SMTP port, allow-list}: two
environments agreeing on those seven variables load equal configurations
(in particular no idle-timeout or call-timeout option exists), and the
configuration is read-only under every program operation. -/
theorem config_options_exact (env env' : Env)
    (h1 : env "REACT_APP_ODOO_URL" = env' "REACT_APP_ODOO_URL")
    (h2 : env "REACT_APP_ODOO_DB" = env' "REACT_APP_ODOO_DB")
    (h3 : env "REACT_APP_DEFAULT_SENDER_EMAIL" = env' "REACT_APP_DEFAULT_SENDER_EMAIL")
    (h4 : env "REACT_APP_DEFAULT_SENDER_PASSWORD" = env' "REACT_APP_DEFAULT_SENDER_PASSWORD")
    (h5 : env "REACT_APP_DEFAULT_SMTP_SERVER" = env' "REACT_APP_DEFAULT_SMTP_SERVER")
    (h6 : env "REACT_APP_DEFAULT_SMTP_PORT" = env' "REACT_APP_DEFAULT_SMTP_PORT")
    (h7 : env "REACT_APP_ALLOWED_USER_EMAILS" = env' "REACT_APP_ALLOWED_USER_EMAILS") :
    loadConfig env = loadConfig env' ∧
    ∀ (s : ProgramState) (e : UIEvent), (stepProgram s e).config = s.config := by
  refine ⟨?_, fun s e => rfl⟩
  simp [loadConfig, ODOO_URL, ODOO_DB, DEFAULT_SENDER_EMAIL, DEFAULT_SENDER_PASSWORD,
    DEFAULT_SMTP_SERVER, DEFAULT_SMTP_PORT, ALLOWED_USER_EMAILS, h1, h2, h3, h4, h5, h6, h7]

/-- Witness for C6's amended theorem: two concrete environments that agree
on the seven read variables (one of them setting an unread variable) load
the same configuration. -/
theorem config_options_exact_witness :
    loadConfig envNone = loadConfig envUnrelated :=
  (config_options_exact envNone envUnrelated rfl rfl rfl rfl rfl rfl rfl).1

/-- C7: in every reachable state, submitting the form hands the
authentication entry point exactly the quadruple {url, database, username,
password} held in the form state — the payload is the form object itself,
which has no other fields. -/
theorem submit_passes_exact_form (env : Env) (evs : List UIEvent) :
    submittedPayload (applyEvents env evs) =
      { url := (applyEvents env evs).form.url,
        database := (applyEvents env evs).form.database,
        username := (applyEvents env evs).form.username,
        password := (applyEvents env evs).form.password } :=
  rfl

/-- C8: the email configuration the core supplies consists of exactly the
four values {sender address, sender credential, SMTP host, SMTP port};
loading the configuration is a pure function of the environment, and when
the SMTP variables are unset the host and port default to
`smtp.gmail.com` and `587`. -/
theorem email_config_defaults (env : Env)
    (hs : env "REACT_APP_DEFAULT_SMTP_SERVER" = none)
    (hp : env "REACT_APP_DEFAULT_SMTP_PORT" = none) :
    emailConfig env =
      { senderEmail := DEFAULT_SENDER_EMAIL env,
        senderPassword := DEFAULT_SENDER_PASSWORD env,
        smtpServer := "smtp.gmail.com",
        smtpPort := "587" } := by
  simp [emailConfig, DEFAULT_SMTP_SERVER, DEFAULT_SMTP_PORT, orDefault, hs, hp]

/-- Witness for C8: in the empty environment the defaults are used. -/
theorem email_config_defaults_witness :
    emailConfig envNone =
      { senderEmail := "", senderPassword := "",
        smtpServer := "smtp.gmail.com", smtpPort := "587" } := by
  have h := email_config_defaults envNone rfl rfl
  simpa [DEFAULT_SENDER_EMAIL, DEFAULT_SENDER_PASSWORD, envNone, orDefault] using h

/-- C9: in every reachable state of the login page the form's url equals
`ODOO_URL` and its database equals `ODOO_DB`; the only rendered inputs are
named `username` and `password`, and `handleChange` updates only the field
matching the triggering input's name. -/
theorem login_page_url_db_invariant (env : Env) (evs : List UIEvent) :
    ((applyEvents env evs).form.url = ODOO_URL env ∧
     (applyEvents env evs).form.database = ODOO_DB env) ∧
    (∀ i : RenderedInput, i.inputName = "username" ∨ i.inputName = "password") ∧
    (∀ (f : Form) (v : String),
      handleChange f "username" v = { f with username := v } ∧
      handleChange f "password" v = { f with password := v }) := by
  refine ⟨reachable_url_db env evs, fun i => ?_, fun f v => ⟨?_, ?_⟩⟩
  · cases i
    · exact Or.inl rfl
    · exact Or.inr rfl
  · simp [handleChange]
  · simp [handleChange]

/-- C10: if the allow-list environment variable is set to a nonempty value,
the allow-list is its comma-split with each entry trimmed (empty entries
retained); if it is unset, the allow-list is the fixed two-element default
list. -/
theorem allowed_user_emails_from_env (env : Env) :
    (∀ s : String, env "REACT_APP_ALLOWED_USER_EMAILS" = some s → s ≠ "" →
      ALLOWED_USER_EMAILS env = (jsSplitComma s).map jsTrim) ∧
    (env "REACT_APP_ALLOWED_USER_EMAILS" = none →
      ALLOWED_USER_EMAILS env =
        ["omar.elhasan@prezlab.com", "sanad.zaqtan@prezlab.com"]) := by
  constructor
  · intro s hs hne
    simp [ALLOWED_USER_EMAILS, hs, hne]
  · intro hn
    simp [ALLOWED_USER_EMAILS, hn, defaultAllowedEmails]

/-- Witness for C10: a trailing comma yields a retained empty entry, and
the empty environment yields the default list. -/
theorem allowed_user_emails_from_env_witness :
    ALLOWED_USER_EMAILS envTrailingComma = ["omar.elhasan@prezlab.com", ""] ∧
    ALLOWED_USER_EMAILS envNone =
      ["omar.elhasan@prezlab.com", "sanad.zaqtan@prezlab.com"] := by
  constructor
  · have h := (allowed_user_emails_from_env envTrailingComma).1
      "omar.elhasan@prezlab.com," rfl (by decide)
    rw [h]
    decide
  · exact (allowed_user_emails_from_env envNone).2 rfl

end CCAFR
